import Mathlib

/-!
Verification development for the SPX options calculator
(`calculator.py`, `option_finder.py`).

The numeric code is embedded over `ℚ`.  The transcendental library
functions the source calls (`np.exp`, `np.log`, `np.sqrt`,
`stats.norm.cdf`, `stats.norm.pdf`) are passed in as an explicit
structure of functions (`MathFns`); every embedded definition is a
direct transcription of the corresponding Python function, with the
library calls routed through that structure.  `round(x, n)` is Python's
round-half-to-even; `int(x)` is truncation toward zero.

For the question whether `black_scholes` guards its closed form against
zero volatility, a second embedding over an IEEE-style extended value
domain (`FV`: finite / +inf / -inf / NaN) is used, because there the
behaviour of the unguarded division by zero is what matters.
-/

/-- Python's `round` to an integer: round half to even (banker's rounding). -/
def halfEven (q : ℚ) : ℤ :=
  if q - ⌊q⌋ < 1/2 then ⌊q⌋
  else if 1/2 < q - ⌊q⌋ then ⌊q⌋ + 1
  else if ⌊q⌋ % 2 = 0 then ⌊q⌋ else ⌊q⌋ + 1

/-- Python's `round(x, n)` on our rational embedding of floats. -/
def pyRound (n : ℕ) (q : ℚ) : ℚ := (halfEven (q * 10 ^ n) : ℚ) / 10 ^ n

/-- Python's `int(x)`: truncation toward zero. -/
def pyTrunc (q : ℚ) : ℤ := if 0 ≤ q then ⌊q⌋ else ⌈q⌉

theorem halfEven_le (q : ℚ) : (halfEven q : ℚ) ≤ q + 1/2 := by
  unfold halfEven
  have hf : (⌊q⌋ : ℚ) ≤ q := Int.floor_le q
  split_ifs with h1 h2 h3 <;> push_cast <;> linarith

theorem le_halfEven (q : ℚ) : q - 1/2 ≤ (halfEven q : ℚ) := by
  unfold halfEven
  have hf : q - 1 < (⌊q⌋ : ℚ) := Int.sub_one_lt_floor q
  split_ifs with h1 h2 h3 <;> push_cast <;> linarith

theorem pyRound_zero_le (q : ℚ) : pyRound 0 q ≤ q + 1/2 := by
  have h := halfEven_le q
  simp only [pyRound, pow_zero, mul_one, div_one]
  exact h

theorem le_pyRound_zero (q : ℚ) : q - 1/2 ≤ pyRound 0 q := by
  have h := le_halfEven q
  simp only [pyRound, pow_zero, mul_one, div_one]
  exact h

theorem pyRound_zero_abs (q : ℚ) : |pyRound 0 q - q| ≤ 1/2 := by
  have h1 := pyRound_zero_le q
  have h2 := le_pyRound_zero q
  rw [abs_le]
  constructor <;> linarith

theorem pyTrunc_le_of_nonneg {q : ℚ} (h : 0 ≤ q) : (pyTrunc q : ℚ) ≤ q := by
  simp only [pyTrunc, if_pos h]
  exact Int.floor_le q

/-- The transcendental library functions used by the source
(`np.exp`, `np.log`, `np.sqrt`, `stats.norm.cdf`, `stats.norm.pdf`),
abstracted as rational-valued functions. -/
structure MathFns where
  exp : ℚ → ℚ
  log : ℚ → ℚ
  sqrt : ℚ → ℚ
  normCdf : ℚ → ℚ
  normPdf : ℚ → ℚ

/-- Embeds `OptionsCalculator.risk_free_rate` (0.0525). -/
def risk_free_rate : ℚ := 21/400

/-- Embeds `OptionsCalculator.black_scholes(S, K, T, r, sigma, option_type)`.
For `T <= 0` the intrinsic value is returned; otherwise the closed-form
value, with the transcendental calls routed through `fns`. -/
def black_scholes (fns : MathFns) (S K T r sigma : ℚ) (option_type : String) : ℚ :=
  if T ≤ 0 then
    if option_type = "call" then max (S - K) 0 else max (K - S) 0
  else
    let d1 := (fns.log (S / K) + (r + (1/2) * sigma ^ 2) * T) / (sigma * fns.sqrt T)
    let d2 := d1 - sigma * fns.sqrt T
    if option_type = "call" then
      S * fns.normCdf d1 - K * fns.exp (-(r * T)) * fns.normCdf d2
    else
      K * fns.exp (-(r * T)) * fns.normCdf (-d2) - S * fns.normCdf (-d1)

/-- Embeds `OptionsCalculator.calculate_breakeven(strike, premium, is_call)`. -/
def calculate_breakeven (strike premium : ℚ) (is_call : Bool) : ℚ :=
  if is_call then strike + premium else strike - premium

/-- Embeds `OptionsCalculator.calculate_probability_of_profit(current_price, break_even, dte, iv, is_bullish)`. -/
def calculate_probability_of_profit (fns : MathFns) (current_price break_even : ℚ)
    (dte : ℤ) (iv : ℚ) (is_bullish : Bool) : ℚ :=
  if dte ≤ 0 then
    if (is_bullish = true ∧ break_even < current_price) ∨
       (is_bullish = false ∧ current_price < break_even) then 1 else 0
  else
    let time_to_expiry : ℚ := (dte : ℚ) / 365
    let drift := (risk_free_rate - (1/2) * iv ^ 2) * time_to_expiry
    let diffusion := iv * fns.sqrt time_to_expiry
    let z_score := (fns.log (break_even / current_price) - drift) / diffusion
    let probability := if is_bullish then 1 - fns.normCdf z_score else fns.normCdf z_score
    max 0 (min 1 probability)

/-- Embeds `OptionsCalculator.calculate_vega_for_iv(S, K, T, r, sigma)`. -/
def calculate_vega_for_iv (fns : MathFns) (S K T r sigma : ℚ) : ℚ :=
  S * fns.normPdf ((fns.log (S / K) + (r + (1/2) * sigma ^ 2) * T) / (sigma * fns.sqrt T))
    * fns.sqrt T

/-- Body of the Newton-Raphson loop of
`OptionsCalculator.calculate_implied_volatility`, with the remaining
iteration budget as explicit fuel (the source runs exactly 100
iterations unless it returns early). -/
def ivLoop (fns : MathFns) (option_price S K T r : ℚ) (option_type : String) :
    ℕ → ℚ → ℚ
  | 0, sigma => sigma
  | n + 1, sigma =>
    if |option_price - black_scholes fns S K T r sigma option_type| < 1/1000 then sigma
    else if 1/10000 < calculate_vega_for_iv fns S K T r sigma then
      ivLoop fns option_price S K T r option_type n
        (max (1/1000)
          (min (sigma + (option_price - black_scholes fns S K T r sigma option_type) /
                calculate_vega_for_iv fns S K T r sigma) 5))
    else ivLoop fns option_price S K T r option_type n sigma

/-- Embeds `OptionsCalculator.calculate_implied_volatility(option_price, S, K, T, r, option_type)`:
100 Newton-Raphson iterations starting from 0.2. -/
def calculate_implied_volatility (fns : MathFns) (option_price S K T r : ℚ)
    (option_type : String) : ℚ :=
  ivLoop fns option_price S K T r option_type 100 (1/5)

/-- One entry of the mapping returned by
`OptionsCalculator.convert_spx_levels`; `fair_value` is present only for
the ES entry (the SPY/XSP/SPX dicts carry no such key). -/
structure ConvRec where
  entry : ℚ
  sl : ℚ
  tp : ℚ
  multiplier : ℚ
  fair_value : Option ℚ
deriving DecidableEq

/-- The full mapping returned by `OptionsCalculator.convert_spx_levels`
(one record per instrument key of `conversion_factors`). -/
structure Conversions where
  SPY : ConvRec
  ES : ConvRec
  XSP : ConvRec
  SPX : ConvRec
deriving DecidableEq

/-- Embeds `OptionsCalculator._calculate_es_fair_value(spx_price)`:
`spx * exp((r - q) * t) - spx` with `q = 0.0142` and `t = 30/365`. -/
def calculate_es_fair_value (fns : MathFns) (spx_price : ℚ) : ℚ :=
  spx_price * fns.exp ((risk_free_rate - 71/5000) * (30/365)) - spx_price

/-- Embeds `OptionsCalculator.convert_spx_levels(spx_entry, spx_sl, spx_tp)`.
SPY and XSP use factor 0.1, SPX is the identity, ES adds the fair-value
offset to each level. -/
def convert_spx_levels (fns : MathFns) (spx_entry spx_sl spx_tp : ℚ) : Conversions :=
  { SPY := { entry := spx_entry * (1/10), sl := spx_sl * (1/10), tp := spx_tp * (1/10)
             , multiplier := 1/10, fair_value := none }
  , ES := { entry := spx_entry + calculate_es_fair_value fns spx_entry
            , sl := spx_sl + calculate_es_fair_value fns spx_entry
            , tp := spx_tp + calculate_es_fair_value fns spx_entry
            , multiplier := 1, fair_value := some (calculate_es_fair_value fns spx_entry) }
  , XSP := { entry := spx_entry * (1/10), sl := spx_sl * (1/10), tp := spx_tp * (1/10)
             , multiplier := 1/10, fair_value := none }
  , SPX := { entry := spx_entry, sl := spx_sl, tp := spx_tp
             , multiplier := 1, fair_value := none } }

/-- Embeds `OptionsCalculator.optimal_position_size(risk_amount, option_price, max_contracts)`.
`max_contracts` is applied only when it is a truthy value (Python
`if max_contracts:`), the 25% Kelly fraction is applied by `int`
truncation, and the result is floored at 1 contract. -/
def optimal_position_size (risk_amount option_price : ℚ) (max_contracts : Option ℤ) : ℤ :=
  let contracts := pyTrunc (risk_amount / (option_price * 100))
  let capped := match max_contracts with
    | some m => if m ≠ 0 then min contracts m else contracts
    | none => contracts
  max 1 (pyTrunc ((capped : ℚ) * (1/4)))

/-- IEEE-754-style extended value domain: the binary64 values the numpy
code computes with, abstracted to a finite rational, the two infinities
and NaN (signed zero is not modelled; the zeros arising in the traced
computations are positive zeros). -/
inductive FV where
  | fin : ℚ → FV
  | pinf : FV
  | ninf : FV
  | nan : FV
deriving DecidableEq

def FV.neg : FV → FV
  | .fin a => .fin (-a)
  | .pinf => .ninf
  | .ninf => .pinf
  | .nan => .nan

def FV.add : FV → FV → FV
  | .fin a, .fin b => .fin (a + b)
  | .fin _, .pinf => .pinf
  | .fin _, .ninf => .ninf
  | .pinf, .fin _ => .pinf
  | .ninf, .fin _ => .ninf
  | .pinf, .pinf => .pinf
  | .ninf, .ninf => .ninf
  | .pinf, .ninf => .nan
  | .ninf, .pinf => .nan
  | .nan, _ => .nan
  | _, .nan => .nan

def FV.sub (a b : FV) : FV := FV.add a (FV.neg b)

def FV.mul : FV → FV → FV
  | .fin a, .fin b => .fin (a * b)
  | .fin a, .pinf => if 0 < a then .pinf else if a < 0 then .ninf else .nan
  | .fin a, .ninf => if 0 < a then .ninf else if a < 0 then .pinf else .nan
  | .pinf, .fin b => if 0 < b then .pinf else if b < 0 then .ninf else .nan
  | .ninf, .fin b => if 0 < b then .ninf else if b < 0 then .pinf else .nan
  | .pinf, .pinf => .pinf
  | .ninf, .ninf => .pinf
  | .pinf, .ninf => .ninf
  | .ninf, .pinf => .ninf
  | .nan, _ => .nan
  | _, .nan => .nan

/-- IEEE division with positive-zero denominators: a nonzero finite
numerator over zero gives a signed infinity (numpy emits a warning but
no exception), `0/0` gives NaN. -/
def FV.div : FV → FV → FV
  | .fin a, .fin b =>
      if b = 0 then (if 0 < a then .pinf else if a < 0 then .ninf else .nan)
      else .fin (a / b)
  | .fin _, .pinf => .fin 0
  | .fin _, .ninf => .fin 0
  | .pinf, .fin b => if 0 ≤ b then .pinf else .ninf
  | .ninf, .fin b => if 0 ≤ b then .ninf else .pinf
  | .pinf, .pinf => .nan
  | .pinf, .ninf => .nan
  | .ninf, .pinf => .nan
  | .ninf, .ninf => .nan
  | .nan, _ => .nan
  | _, .nan => .nan

instance : Add FV := ⟨FV.add⟩
instance : Sub FV := ⟨FV.sub⟩
instance : Mul FV := ⟨FV.mul⟩
instance : Div FV := ⟨FV.div⟩
instance : Neg FV := ⟨FV.neg⟩

/-- The transcendental library functions over the extended float domain. -/
structure FloatFns where
  expF : FV → FV
  logF : FV → FV
  sqrtF : FV → FV
  cdfF : FV → FV

/-- The source `OptionsCalculator.black_scholes` re-embedded over the IEEE-style
domain `FV`, exactly as written in the source: the only branch is on
`T <= 0`; for `T > 0` the closed-form `d1`/`d2` expressions are
evaluated unconditionally, whatever `sigma` and `K` are. -/
def black_scholes_fv (fns : FloatFns) (S K T r sigma : ℚ) (option_type : String) : FV :=
  if T ≤ 0 then
    FV.fin (if option_type = "call" then max (S - K) 0 else max (K - S) 0)
  else
    let Sf := FV.fin S
    let Kf := FV.fin K
    let Tf := FV.fin T
    let rf := FV.fin r
    let sf := FV.fin sigma
    let d1 := (fns.logF (Sf / Kf) + (rf + FV.fin (1/2) * (sf * sf)) * Tf) / (sf * fns.sqrtF Tf)
    let d2 := d1 - sf * fns.sqrtF Tf
    if option_type = "call" then
      Sf * fns.cdfF d1 - Kf * fns.expF (-rf * Tf) * fns.cdfF d2
    else
      Kf * fns.expF (-rf * Tf) * fns.cdfF (-d2) - Sf * fns.cdfF (-d1)

/-- Embeds `OptionFinder.min_probability` (0.25). -/
def min_probability : ℚ := 1/4

/-- Embeds `OptionFinder.max_contracts` (100). -/
def max_contracts : ℤ := 100

/-- The Python option-type string passed by `OptionFinder`
(`'call' if is_call else 'put'`). -/
def cp (is_call : Bool) : String := if is_call then "call" else "put"

/-- Embeds `T = max(dte / 365, 1/365/24)` as computed at the top of
`find_best_strike`, `find_spread_strategy` and `find_butterfly_strategy`. -/
def time_to_expiry (dte : ℤ) : ℚ := max ((dte : ℚ) / 365) (1/8760)

/-- Embeds `OptionFinder._round_to_standard_strike(price)`. -/
def round_to_standard_strike (price : ℚ) : ℚ :=
  if price < 10 then (halfEven (price * 2) : ℚ) / 2
  else if price < 100 then (halfEven price : ℚ)
  else if price < 500 then (halfEven (price / 5) : ℚ) * 5
  else (halfEven (price / 10) : ℚ) * 10

/-- Insertion into a sorted list (ascending), used to render Python's
`sorted(...)` by a structurally recursive sort. -/
def insertSorted (a : ℚ) : List ℚ → List ℚ
  | [] => [a]
  | b :: t => if a ≤ b then a :: b :: t else b :: insertSorted a t

/-- Ascending insertion sort on rationals (Python's `sorted`). -/
def sortAsc : List ℚ → List ℚ
  | [] => []
  | a :: t => insertSorted a (sortAsc t)

/-- Embeds `OptionFinder._generate_strike_candidates(current, target, stop, is_call)`:
the while-loop is rendered by computing its iteration count up front
(`step > 0` always, so for calls the loop visits `start + i*step` while
that stays `≤ end`, and symmetrically for puts); each visited value is
rounded to a standard strike, deduplicated, and the list is sorted.
`stop` is accepted but unused, exactly as in the source. -/
def generate_strike_candidates (current target stop : ℚ) (is_call : Bool) : List ℚ :=
  let step : ℚ := if current < 100 then 1 else if current < 1000 then 5 else 10
  let start : ℚ := if is_call then current * (95/100) else target
  let stop_val : ℚ := if is_call then target else current * (105/100)
  let count : ℕ :=
    if is_call then
      (if start ≤ stop_val then (⌊(stop_val - start) / step⌋).toNat + 1 else 0)
    else
      (if stop_val ≤ start then (⌊(start - stop_val) / step⌋).toNat + 1 else 0)
  let raw := (List.range count).map
    (fun i => if is_call then start + (i : ℚ) * step else start - (i : ℚ) * step)
  let deduped := raw.foldl
    (fun acc p =>
      let rounded := round_to_standard_strike p
      if rounded ∈ acc then acc else acc ++ [rounded]) []
  sortAsc deduped

/-- The result dict built inside the candidate loop of
`OptionFinder.find_best_strike` (field per dict key; `found` is the
`Option` wrapper). -/
structure TradeRec where
  strike : ℚ
  entry_price : ℚ
  target_price : ℚ
  contracts : ℤ
  total_risk : ℚ
  max_profit : ℚ
  breakeven : ℚ
  probability : ℚ
  rrr : ℚ
  score : ℚ
  prob_loss : ℚ
deriving DecidableEq

/-- One candidate strike of the loop body of `find_best_strike`:
`some rec` iff the strike passes every gate of the loop (positive
affordable premium, nonzero contract count, probability at least
`min_probability`), independently of the running best-score comparison. -/
def mkCandidate (fns : MathFns) (entry target risk_amount : ℚ) (is_call : Bool)
    (dte : ℤ) (iv T strike : ℚ) : Option TradeRec :=
  let option_price := black_scholes fns entry strike T risk_free_rate iv (cp is_call)
  if option_price ≤ 0 ∨ risk_amount < option_price * 100 then none
  else
    let contracts := min (pyTrunc (risk_amount / (option_price * 100))) max_contracts
    if contracts = 0 then none
    else
      let actual_risk := (contracts : ℚ) * option_price * 100
      let target_value := black_scholes fns target strike (T * (1/2)) risk_free_rate iv (cp is_call)
      let max_profit := (contracts : ℚ) * (target_value - option_price) * 100
      let breakeven := calculate_breakeven strike option_price is_call
      let probability := calculate_probability_of_profit fns entry breakeven dte iv is_call
      if 0 < actual_risk ∧ min_probability ≤ probability then
        let rrr := max_profit / actual_risk
        let score := rrr * probability - |strike - entry| / entry * 10
        some { strike := strike
             , entry_price := pyRound 2 option_price
             , target_price := pyRound 2 target_value
             , contracts := contracts
             , total_risk := pyRound 0 actual_risk
             , max_profit := pyRound 0 max_profit
             , breakeven := pyRound 2 breakeven
             , probability := probability
             , rrr := pyRound 1 rrr
             , score := score
             , prob_loss := 1 - probability }
      else none

/-- Embeds `score > best_score` with `best_score` initialised to `-inf`:
true against an empty best, otherwise a strict comparison. -/
def betterThan (best : Option TradeRec) (score : ℚ) : Bool :=
  match best with
  | none => true
  | some b => decide (b.score < score)

/-- One iteration of the strike loop of `find_best_strike`: install the
candidate as the new best when it qualifies and strictly beats the
running best score. -/
def considerStrike (fns : MathFns) (entry target risk_amount : ℚ) (is_call : Bool)
    (dte : ℤ) (iv T : ℚ) (best : Option TradeRec) (strike : ℚ) : Option TradeRec :=
  match mkCandidate fns entry target risk_amount is_call dte iv T strike with
  | none => best
  | some rec => if betterThan best rec.score then some rec else best

/-- Embeds `OptionFinder.find_best_strike(instrument, current_price, entry, target,
stop, risk_amount, is_call, dte, iv)`; `none` plays the role of the
`{'found': False, ...}` results. -/
def find_best_strike (fns : MathFns) (instrument : String)
    (current_price entry target stop risk_amount : ℚ) (is_call : Bool)
    (dte : ℤ) (iv : ℚ) : Option TradeRec :=
  if risk_amount ≤ 0 ∨ current_price ≤ 0 then none
  else
    (generate_strike_candidates current_price target stop is_call).foldl
      (considerStrike fns entry target risk_amount is_call dte iv (time_to_expiry dte))
      none

/-- The long strike of `OptionFinder.find_spread_strategy`
(`entry ∓ spread_width/4` rounded, with `spread_width = |target-entry|/2`). -/
def spread_long_strike (entry target : ℚ) (is_call : Bool) : ℚ :=
  if is_call then round_to_standard_strike (entry - (|target - entry| / 2) / 4)
  else round_to_standard_strike (entry + (|target - entry| / 2) / 4)

/-- The short strike of `find_spread_strategy` (the rounded target). -/
def spread_short_strike (target : ℚ) : ℚ := round_to_standard_strike target

/-- Embeds `net_debit = long_premium - short_premium` of `find_spread_strategy`. -/
def spread_net_debit (fns : MathFns) (entry target : ℚ) (is_call : Bool) (T iv : ℚ) : ℚ :=
  black_scholes fns entry (spread_long_strike entry target is_call) T risk_free_rate iv (cp is_call)
    - black_scholes fns entry (spread_short_strike target) T risk_free_rate iv (cp is_call)

/-- The result dict of `find_spread_strategy`. -/
structure SpreadRec where
  type : String
  long_strike : ℚ
  short_strike : ℚ
  net_debit : ℚ
  contracts : ℤ
  max_profit : ℚ
  max_loss : ℚ
  rrr : ℚ
  breakeven : ℚ
deriving DecidableEq

/-- Embeds `OptionFinder.find_spread_strategy(instrument, current_price, entry,
target, risk_amount, is_call, dte, iv)`. -/
def find_spread_strategy (fns : MathFns) (instrument : String)
    (current_price entry target risk_amount : ℚ) (is_call : Bool)
    (dte : ℤ) (iv : ℚ) : Option SpreadRec :=
  let long_strike := spread_long_strike entry target is_call
  let short_strike := spread_short_strike target
  let net_debit := spread_net_debit fns entry target is_call (time_to_expiry dte) iv
  if net_debit ≤ 0 then none
  else
    let contracts := min (pyTrunc (risk_amount / (net_debit * 100))) max_contracts
    if contracts = 0 then none
    else
      let max_profit := (|short_strike - long_strike| - net_debit) * (contracts : ℚ) * 100
      let max_loss := net_debit * (contracts : ℚ) * 100
      some { type := "Vertical Spread"
           , long_strike := long_strike
           , short_strike := short_strike
           , net_debit := pyRound 2 net_debit
           , contracts := contracts
           , max_profit := pyRound 0 max_profit
           , max_loss := pyRound 0 max_loss
           , rrr := if 0 < max_loss then pyRound 1 (max_profit / max_loss) else 0
           , breakeven := if is_call then long_strike + net_debit else long_strike - net_debit }

/-- The centre strike of `OptionFinder.find_butterfly_strategy`. -/
def butterfly_atm_strike (pin_target : ℚ) : ℚ := round_to_standard_strike pin_target

/-- The lower wing of `find_butterfly_strategy` (2% of current price below the centre). -/
def butterfly_lower_strike (current_price pin_target : ℚ) : ℚ :=
  round_to_standard_strike (butterfly_atm_strike pin_target - current_price * (2/100))

/-- The upper wing of `find_butterfly_strategy`. -/
def butterfly_upper_strike (current_price pin_target : ℚ) : ℚ :=
  round_to_standard_strike (butterfly_atm_strike pin_target + current_price * (2/100))

/-- Embeds `net_debit = lower_premium - 2*atm_premium + upper_premium` of
`find_butterfly_strategy` (all legs priced at `current_price`). -/
def butterfly_net_debit (fns : MathFns) (current_price pin_target : ℚ) (is_call : Bool)
    (T iv : ℚ) : ℚ :=
  black_scholes fns current_price (butterfly_lower_strike current_price pin_target) T
      risk_free_rate iv (cp is_call)
    - 2 * black_scholes fns current_price (butterfly_atm_strike pin_target) T
      risk_free_rate iv (cp is_call)
    + black_scholes fns current_price (butterfly_upper_strike current_price pin_target) T
      risk_free_rate iv (cp is_call)

/-- The result dict of `find_butterfly_strategy`; the `profit_range`
f-string is modelled by its two numeric endpoints. -/
structure ButterflyRec where
  type : String
  lower_strike : ℚ
  atm_strike : ℚ
  upper_strike : ℚ
  net_debit : ℚ
  contracts : ℤ
  max_profit : ℚ
  max_loss : ℚ
  rrr : ℚ
  pin_target : ℚ
  profit_low : ℚ
  profit_high : ℚ
deriving DecidableEq

/-- Embeds `OptionFinder.find_butterfly_strategy(instrument, current_price,
pin_target, risk_amount, is_call, dte, iv)`. -/
def find_butterfly_strategy (fns : MathFns) (instrument : String)
    (current_price pin_target risk_amount : ℚ) (is_call : Bool)
    (dte : ℤ) (iv : ℚ) : Option ButterflyRec :=
  let atm_strike := butterfly_atm_strike pin_target
  let lower_strike := butterfly_lower_strike current_price pin_target
  let upper_strike := butterfly_upper_strike current_price pin_target
  let net_debit := butterfly_net_debit fns current_price pin_target is_call (time_to_expiry dte) iv
  if net_debit ≤ 0 then none
  else
    let contracts := min (pyTrunc (risk_amount / (net_debit * 100))) max_contracts
    if contracts = 0 then none
    else
      let max_profit := (atm_strike - lower_strike - net_debit) * (contracts : ℚ) * 100
      let max_loss := net_debit * (contracts : ℚ) * 100
      some { type := "Butterfly Spread"
           , lower_strike := lower_strike
           , atm_strike := atm_strike
           , upper_strike := upper_strike
           , net_debit := pyRound 2 net_debit
           , contracts := contracts
           , max_profit := pyRound 0 max_profit
           , max_loss := pyRound 0 max_loss
           , rrr := if 0 < max_loss then pyRound 1 (max_profit / max_loss) else 0
           , pin_target := atm_strike
           , profit_low := lower_strike + net_debit
           , profit_high := upper_strike - net_debit }

theorem mkCandidate_eq_some {fns : MathFns} {entry target risk_amount : ℚ}
    {is_call : Bool} {dte : ℤ} {iv T strike : ℚ} {rec : TradeRec}
    (h : mkCandidate fns entry target risk_amount is_call dte iv T strike = some rec) :
    rec.strike = strike ∧
    0 < black_scholes fns entry strike T risk_free_rate iv (cp is_call) ∧
    black_scholes fns entry strike T risk_free_rate iv (cp is_call) * 100 ≤ risk_amount ∧
    rec.contracts = min (pyTrunc (risk_amount /
      (black_scholes fns entry strike T risk_free_rate iv (cp is_call) * 100))) max_contracts ∧
    rec.total_risk = pyRound 0 ((rec.contracts : ℚ) *
      black_scholes fns entry strike T risk_free_rate iv (cp is_call) * 100) ∧
    min_probability ≤ rec.probability := by
  simp only [mkCandidate] at h
  split_ifs at h with h1 h2 h3 <;>
    first
      | exact Option.noConfusion h
      | (push_neg at h1
         obtain ⟨hpos, haff⟩ := h1
         obtain rfl := Option.some.inj h
         exact ⟨rfl, hpos, haff, rfl, rfl, h3.2⟩)

theorem foldl_considerStrike {fns : MathFns} {entry target risk_amount : ℚ}
    {is_call : Bool} {dte : ℤ} {iv T : ℚ} :
    ∀ (l : List ℚ) (b : Option TradeRec) (rec : TradeRec),
      l.foldl (considerStrike fns entry target risk_amount is_call dte iv T) b = some rec →
      b = some rec ∨
        ∃ s, mkCandidate fns entry target risk_amount is_call dte iv T s = some rec := by
  intro l
  induction l with
  | nil => intro b rec h; exact Or.inl h
  | cons s t ih =>
    intro b rec h
    simp only [List.foldl_cons] at h
    rcases ih _ _ h with h' | h'
    · unfold considerStrike at h'
      rcases hm : mkCandidate fns entry target risk_amount is_call dte iv T s with _ | c
      · rw [hm] at h'
        exact Or.inl h'
      · rw [hm] at h'
        dsimp only at h'
        split_ifs at h' with hb
        · obtain rfl := Option.some.inj h'
          exact Or.inr ⟨s, hm⟩
        · exact Or.inl h'
    · exact Or.inr h'

theorem find_best_strike_eq_some {fns : MathFns} {instrument : String}
    {current_price entry target stop risk_amount : ℚ} {is_call : Bool} {dte : ℤ}
    {iv : ℚ} {rec : TradeRec}
    (h : find_best_strike fns instrument current_price entry target stop risk_amount
      is_call dte iv = some rec) :
    ∃ s, mkCandidate fns entry target risk_amount is_call dte iv (time_to_expiry dte) s
      = some rec := by
  unfold find_best_strike at h
  split_ifs at h with h1 <;>
    first
      | exact Option.noConfusion h
      | (rcases foldl_considerStrike _ _ _ h with h' | h'
         · exact Option.noConfusion h'
         · exact h')

/-- Auxiliary arithmetic: a contract count at most
`int(risk / (premium*100))` costs at most `risk`. -/
theorem contracts_cost_le {c : ℤ} {p risk : ℚ} (hp : 0 < p) (haff : p * 100 ≤ risk)
    (hc : c ≤ pyTrunc (risk / (p * 100))) : (c : ℚ) * p * 100 ≤ risk := by
  have hp100 : (0 : ℚ) < p * 100 := by linarith
  have hrisk : (0 : ℚ) ≤ risk := le_trans (le_of_lt hp100) haff
  have hq : (0 : ℚ) ≤ risk / (p * 100) := div_nonneg hrisk (le_of_lt hp100)
  have h1 : (c : ℚ) ≤ risk / (p * 100) := by
    calc (c : ℚ) ≤ (pyTrunc (risk / (p * 100)) : ℚ) := by exact_mod_cast hc
    _ ≤ risk / (p * 100) := pyTrunc_le_of_nonneg hq
  calc (c : ℚ) * p * 100 = (c : ℚ) * (p * 100) := by ring
  _ ≤ (risk / (p * 100)) * (p * 100) := mul_le_mul_of_nonneg_right h1 (le_of_lt hp100)
  _ = risk := div_mul_cancel₀ risk (ne_of_gt hp100)

set_option allowUnsafeReducibility true in
attribute [semireducible] Rat.mul Rat.add Rat.sub Rat.inv

/-- A concrete instantiation of the transcendental functions, used for
closed evaluations: exp ≡ 1, log ≡ 0, sqrt ≡ 0, Φ ≡ 1/2, φ ≡ 0. -/
def constFns : MathFns := ⟨fun _ => 1, fun _ => 0, fun _ => 0, fun _ => 1/2, fun _ => 0⟩

/-- Like `constFns` but with exp ≡ 490003/490000, chosen so that at entry
1000 a strike of 980 is priced at exactly 9.997. -/
def skewFns : MathFns := ⟨fun _ => 490003/490000, fun _ => 0, fun _ => 0, fun _ => 1/2, fun _ => 0⟩

/-- The everywhere-zero instantiation of the transcendental functions. -/
def zeroFns : MathFns := ⟨fun _ => 0, fun _ => 0, fun _ => 0, fun _ => 0, fun _ => 0⟩

/-- Like `constFns` but with exp ≡ 450049/450000, giving the 990/1080
vertical call spread a net debit of exactly 45.0049. -/
def spreadFns : MathFns := ⟨fun _ => 450049/450000, fun _ => 0, fun _ => 0, fun _ => 1/2, fun _ => 0⟩

/-- The recommendation returned by `find_best_strike` under `constFns`
with entry 1000, target 984, risk 1500 (strike 970, one contract). -/
def wRecC1 : TradeRec := ⟨970, 15, 7, 1, 1500, -800, 985, 1, -1/2, -5/6, 0⟩

/-- The recommendation returned by `find_best_strike` under `constFns`
with entry 1000, target 985, risk 2000 (strike 960, one contract). -/
def wRecC6 : TradeRec := ⟨960, 20, 25/2, 1, 2000, -750, 980, 1, -2/5, -31/40, 0⟩

/-- C1, amended.  Whenever `find_best_strike` returns a recommendation,
the premium of the selected strike is positive, one contract is
affordable within the risk budget (`premium*100 ≤ riskAmount`, otherwise
the candidate is skipped), the contract count is
`int(riskAmount/(premium*100))` capped at `max_contracts = 100`, and the
exact position cost `contracts * premium * 100` never exceeds
`riskAmount`.  The `total_risk` field of the returned dict, however, is
that exact cost rounded to the nearest whole number (Python
`round(actual_risk, 0)`), so the reported figure can exceed `riskAmount`
by up to 0.5 — it is only bounded by `riskAmount + 1/2`. -/
theorem find_best_strike_risk_budget (fns : MathFns) (instrument : String)
    (current_price entry target stop risk_amount : ℚ) (is_call : Bool) (dte : ℤ)
    (iv : ℚ) (rec : TradeRec)
    (h : find_best_strike fns instrument current_price entry target stop risk_amount
      is_call dte iv = some rec) :
    0 < black_scholes fns entry rec.strike (time_to_expiry dte) risk_free_rate iv
      (cp is_call) ∧
    black_scholes fns entry rec.strike (time_to_expiry dte) risk_free_rate iv
      (cp is_call) * 100 ≤ risk_amount ∧
    rec.contracts = min (pyTrunc (risk_amount /
      (black_scholes fns entry rec.strike (time_to_expiry dte) risk_free_rate iv
        (cp is_call) * 100))) max_contracts ∧
    (rec.contracts : ℚ) * black_scholes fns entry rec.strike (time_to_expiry dte)
      risk_free_rate iv (cp is_call) * 100 ≤ risk_amount ∧
    rec.total_risk = pyRound 0 ((rec.contracts : ℚ) *
      black_scholes fns entry rec.strike (time_to_expiry dte) risk_free_rate iv
        (cp is_call) * 100) ∧
    rec.total_risk ≤ risk_amount + 1/2 := by
  obtain ⟨s, hs⟩ := find_best_strike_eq_some h
  obtain ⟨hstrike, hpos, haff, hcon, htot, -⟩ := mkCandidate_eq_some hs
  subst hstrike
  have hcost : (rec.contracts : ℚ) * black_scholes fns entry rec.strike
      (time_to_expiry dte) risk_free_rate iv (cp is_call) * 100 ≤ risk_amount :=
    contracts_cost_le hpos haff (by rw [hcon]; exact min_le_left _ _)
  refine ⟨hpos, haff, hcon, hcost, htot, ?_⟩
  rw [htot]
  have := pyRound_zero_le ((rec.contracts : ℚ) * black_scholes fns entry rec.strike
      (time_to_expiry dte) risk_free_rate iv (cp is_call) * 100)
  linarith

/-- Witness for C1's amended theorem at a concrete found case. -/
theorem find_best_strike_risk_budget_witness :
    (wRecC1.contracts : ℚ) * black_scholes constFns 1000 wRecC1.strike
      (time_to_expiry 0) risk_free_rate (1/5) (cp true) * 100 ≤ 1500 ∧
    wRecC1.total_risk ≤ 1500 + 1/2 := by
  have h := find_best_strike_risk_budget constFns "SPX" 1000 1000 984 990 1500
    true 0 (1/5) wRecC1 (by decide)
  exact ⟨h.2.2.2.1, h.2.2.2.2.2⟩

/-- Counterexample to C1 as stated: under `skewFns` the strike-980 call
is priced at exactly 9.997, one contract costs 999.7 ≤ 999.9, and the
reported `total_risk` is `round(999.7, 0) = 1000`, which exceeds the
caller's risk budget of 999.9. -/
theorem find_best_strike_total_risk_above_budget :
    (find_best_strike skewFns "SPX" 1000 1000 985 990 (9999/10) true 0 (1/5)).map
      TradeRec.total_risk = some 1000 ∧ ¬ ((1000 : ℚ) ≤ 9999/10) := by decide

/-- C6.  A returned recommendation always carries
`probability ≥ min_probability = 0.25`, and a candidate strike whose
probability of profit is below 0.25 is rejected by the loop. -/
theorem find_best_strike_min_probability (fns : MathFns) (instrument : String)
    (current_price entry target stop risk_amount : ℚ) (is_call : Bool) (dte : ℤ)
    (iv : ℚ) :
    (∀ rec : TradeRec,
      find_best_strike fns instrument current_price entry target stop risk_amount
        is_call dte iv = some rec → 1/4 ≤ rec.probability) ∧
    (∀ strike : ℚ,
      calculate_probability_of_profit fns entry
        (calculate_breakeven strike
          (black_scholes fns entry strike (time_to_expiry dte) risk_free_rate iv
            (cp is_call)) is_call) dte iv is_call < 1/4 →
      mkCandidate fns entry target risk_amount is_call dte iv (time_to_expiry dte)
        strike = none) := by
  constructor
  · intro rec h
    obtain ⟨s, hs⟩ := find_best_strike_eq_some h
    exact (mkCandidate_eq_some hs).2.2.2.2.2
  · intro strike hlt
    simp only [mkCandidate]
    split_ifs with h1 h2 h3
    · rfl
    · rfl
    · exact absurd h3.2 (not_le.mpr hlt)
    · rfl

/-- Witness for C6 at a concrete found case (probability 1) and a
concrete rejected candidate (probability 0). -/
theorem find_best_strike_min_probability_witness :
    (1/4 : ℚ) ≤ wRecC6.probability ∧
    mkCandidate zeroFns 100 110 1000 true 0 (1/5) (time_to_expiry 0) 100 = none := by
  refine ⟨(find_best_strike_min_probability constFns "SPX" 1000 1000 985 990 2000
      true 0 (1/5)).1 wRecC6 (by decide), ?_⟩
  exact (find_best_strike_min_probability zeroFns "SPX" 100 100 110 95 1000
      true 0 (1/5)).2 100 (by decide)

/-- C7, amended.  `find_best_strike` short-circuits to NotFound exactly
on the validation `risk_amount <= 0 or current_price <= 0`; the
volatility argument is not part of that validation (see the
counterexample: a non-positive `iv` can still produce a
recommendation). -/
theorem find_best_strike_rejects_nonpositive_inputs (fns : MathFns)
    (instrument : String) (current_price entry target stop risk_amount : ℚ)
    (is_call : Bool) (dte : ℤ) (iv : ℚ)
    (h : risk_amount ≤ 0 ∨ current_price ≤ 0) :
    find_best_strike fns instrument current_price entry target stop risk_amount
      is_call dte iv = none := by
  unfold find_best_strike
  rw [if_pos h]

/-- Witness for C7's amended theorem: a negative risk budget is rejected. -/
theorem find_best_strike_rejects_nonpositive_inputs_witness :
    find_best_strike zeroFns "SPX" 100 100 110 95 (-1) true 0 (1/5) = none :=
  find_best_strike_rejects_nonpositive_inputs zeroFns "SPX" 100 100 110 95 (-1)
    true 0 (1/5) (Or.inl (by norm_num))

/-- Counterexample to C7 as stated: with volatility `iv = 0` (a
non-positive volatility) `find_best_strike` does not return NotFound —
pricing proceeds and a recommendation is produced. -/
theorem find_best_strike_zero_vol_not_rejected :
    (find_best_strike skewFns "SPX" 1000 1000 985 990 1000 true 0 0).isSome = true ∧
    (0 : ℚ) ≤ 0 := by decide

/-- Transcendental functions on `FV` agreeing with numpy/scipy on the
values traced in the zero-volatility evaluation: `log 1 = 0`,
`sqrt 1 = 1`, `Φ(+inf) = 1`, and `exp(-0.0525)` a finite value in
`(0,1)` (stood in by `19/20`). -/
def cFns : FloatFns :=
  ⟨fun v => if v = FV.fin (-(21/400)) then FV.fin (19/20) else FV.nan,
   fun v => if v = FV.fin 1 then FV.fin 0 else FV.nan,
   fun v => if v = FV.fin 1 then FV.fin 1 else FV.nan,
   fun v => if v = FV.pinf then FV.fin 1 else FV.nan⟩

/-- C2.  At the failing input `S = K = 100`, `T = 1`, `r = 0.0525`,
`sigma = 0` (non-positive volatility with positive time), the source
`black_scholes` reaches the closed form unguarded: `d1 = (log 1 +
(r + 0)*T) / (0 * sqrt 1)` is a division by zero, which the float
semantics evaluate to `+inf`; `norm.cdf(+inf) = 1`, so the function
returns the finite value `S - K*exp(-r*T)` (here `fin 5` with
`exp(-0.0525)` stood in by `19/20`) — no guard, no NaN sentinel, no
exception. -/
theorem black_scholes_fv_zero_vol_finite :
    black_scholes_fv cFns 100 100 1 (21/400) 0 "call" = FV.fin 5 ∧
    FV.fin 5 ≠ FV.nan ∧ (0 : ℚ) < 5 := by decide

/-- C3.  Put-call parity: given the reflection identity
`Φ(x) + Φ(-x) = 1` of the standard normal CDF, the difference between
the call and put values of `black_scholes` is exactly
`S - K*exp(-r*T)` for all positive `S`, `K`, `T`, `sigma`. -/
theorem black_scholes_put_call_parity (fns : MathFns)
    (hcdf : ∀ x : ℚ, fns.normCdf x + fns.normCdf (-x) = 1)
    (S K T r sigma : ℚ) (hS : 0 < S) (hK : 0 < K) (hT : 0 < T) (hsig : 0 < sigma) :
    black_scholes fns S K T r sigma "call" - black_scholes fns S K T r sigma "put"
      = S - K * fns.exp (-(r * T)) := by
  have hT' : ¬ (T ≤ 0) := not_le.mpr hT
  simp only [black_scholes, if_neg hT']
  rw [if_pos trivial, if_neg (by decide : ¬ ("put" : String) = "call")]
  linear_combination
    S * hcdf ((fns.log (S / K) + (r + (1/2) * sigma ^ 2) * T) / (sigma * fns.sqrt T)) -
    K * fns.exp (-(r * T)) *
      hcdf ((fns.log (S / K) + (r + (1/2) * sigma ^ 2) * T) / (sigma * fns.sqrt T) -
        sigma * fns.sqrt T)

/-- Witness for C3 with the constant CDF 1/2 (which satisfies the
reflection identity) at `S = 100`, `K = 90`, `T = 1`, `r = 0`, `sigma = 1`. -/
theorem black_scholes_put_call_parity_witness :
    black_scholes constFns 100 90 1 0 1 "call" - black_scholes constFns 100 90 1 0 1 "put"
      = 100 - 90 * constFns.exp (-(0 * 1)) :=
  black_scholes_put_call_parity constFns (fun x => by norm_num [constFns])
    100 90 1 0 1 (by norm_num) (by norm_num) (by norm_num) (by norm_num)

/-- C4.  For `T <= 0`, `black_scholes` returns the intrinsic value:
`max(S-K, 0)` for a call, `max(K-S, 0)` for a put. -/
theorem black_scholes_expiry_intrinsic (fns : MathFns) (S K T r sigma : ℚ)
    (hT : T ≤ 0) :
    black_scholes fns S K T r sigma "call" = max (S - K) 0 ∧
    black_scholes fns S K T r sigma "put" = max (K - S) 0 := by
  unfold black_scholes
  rw [if_pos hT, if_pos hT]
  constructor
  · rw [if_pos rfl]
  · rw [if_neg (by decide : ¬ ("put" : String) = "call")]

/-- Witness for C4 at `S = 7`, `K = 3`, `T = 0`. -/
theorem black_scholes_expiry_intrinsic_witness :
    black_scholes constFns 7 3 0 0 1 "call" = max ((7 : ℚ) - 3) 0 ∧
    black_scholes constFns 7 3 0 0 1 "put" = max ((3 : ℚ) - 7) 0 :=
  black_scholes_expiry_intrinsic constFns 7 3 0 0 1 le_rfl

/-- Every iterate of the implied-volatility loop stays in `[0.001, 5]`:
the clamp `max(0.001, min(sigma', 5))` is applied on every update and
the other branches leave sigma unchanged. -/
theorem ivLoop_bounds (fns : MathFns) (option_price S K T r : ℚ) (ty : String) :
    ∀ (n : ℕ) (sigma : ℚ), 1/1000 ≤ sigma → sigma ≤ 5 →
      1/1000 ≤ ivLoop fns option_price S K T r ty n sigma ∧
      ivLoop fns option_price S K T r ty n sigma ≤ 5 := by
  intro n
  induction n with
  | zero => intro sigma h1 h2; exact ⟨h1, h2⟩
  | succ n ih =>
    intro sigma h1 h2
    simp only [ivLoop]
    split_ifs with hconv hvega
    · exact ⟨h1, h2⟩
    · refine ih _ (le_max_left _ _) (max_le (by norm_num) (min_le_right _ _))
    · exact ih sigma h1 h2

/-- C5.  `calculate_implied_volatility` always terminates (the loop is
run on an explicit budget of 100 iterations) and returns a value in
`[0.001, 5]`; when the initial guess 0.2 already satisfies
`|observed - model| < 0.001` it stops at once and returns 0.2; and when
an iterate has `vega <= 1e-4` without being converged, the iterate is
left unchanged for the rest of the budget (the last iterate is returned,
no exception). -/
theorem implied_volatility_props (fns : MathFns) (option_price S K T r : ℚ)
    (ty : String) :
    (1/1000 ≤ calculate_implied_volatility fns option_price S K T r ty ∧
      calculate_implied_volatility fns option_price S K T r ty ≤ 5) ∧
    (|option_price - black_scholes fns S K T r (1/5) ty| < 1/1000 →
      calculate_implied_volatility fns option_price S K T r ty = 1/5) ∧
    (∀ (n : ℕ) (sigma : ℚ),
      ¬ |option_price - black_scholes fns S K T r sigma ty| < 1/1000 →
      ¬ 1/10000 < calculate_vega_for_iv fns S K T r sigma →
      ivLoop fns option_price S K T r ty n sigma = sigma) := by
  refine ⟨?_, ?_, ?_⟩
  · exact ivLoop_bounds fns option_price S K T r ty 100 (1/5) (by norm_num) (by norm_num)
  · intro h
    unfold calculate_implied_volatility
    rw [show (100 : ℕ) = 99 + 1 from rfl]
    rw [ivLoop]
    rw [if_pos h]
  · intro n
    induction n with
    | zero => intro sigma h1 h2; rfl
    | succ n ih =>
      intro sigma h1 h2
      simp only [ivLoop]
      rw [if_neg h1, if_neg h2]
      exact ih sigma h1 h2

/-- Witness for C5: bounds at one input; immediate convergence when the
model already matches (price 0 under the zero functions); a frozen
iterate when vega is 0 and the residual is 1. -/
theorem implied_volatility_props_witness :
    (1/1000 ≤ calculate_implied_volatility zeroFns 1 100 90 1 0 "call" ∧
      calculate_implied_volatility zeroFns 1 100 90 1 0 "call" ≤ 5) ∧
    calculate_implied_volatility zeroFns 0 100 90 1 0 "call" = 1/5 ∧
    ivLoop zeroFns 1 100 90 1 0 "call" 7 (3/10) = 3/10 := by
  refine ⟨(implied_volatility_props zeroFns 1 100 90 1 0 "call").1, ?_, ?_⟩
  · exact (implied_volatility_props zeroFns 0 100 90 1 0 "call").2.1 (by decide)
  · exact (implied_volatility_props zeroFns 1 100 90 1 0 "call").2.2 7 (3/10)
      (by decide) (by decide)

/-- C8, amended.  Both spread constructors reject with NotFound when the
net debit is non-positive, and likewise when the capital buys no spread
(contract count 0).  For a returned structure the net debit is positive,
the contract count is `int(risk/(netDebit*100))` capped at 100 and
nonzero, and the reported `max_loss` is `netDebit * contracts * 100`
rounded to the nearest whole number (Python `round(..., 0)`) — within
1/2 of the exact product, but not equal to it in general. -/
theorem spread_butterfly_reject_and_max_loss (fns : MathFns) (instrument : String)
    (current_price entry target pin_target risk_amount : ℚ) (is_call : Bool)
    (dte : ℤ) (iv : ℚ) :
    ((spread_net_debit fns entry target is_call (time_to_expiry dte) iv ≤ 0 →
        find_spread_strategy fns instrument current_price entry target risk_amount
          is_call dte iv = none) ∧
      (min (pyTrunc (risk_amount /
          (spread_net_debit fns entry target is_call (time_to_expiry dte) iv * 100)))
          max_contracts = 0 →
        find_spread_strategy fns instrument current_price entry target risk_amount
          is_call dte iv = none) ∧
      (∀ r : SpreadRec,
        find_spread_strategy fns instrument current_price entry target risk_amount
          is_call dte iv = some r →
        0 < spread_net_debit fns entry target is_call (time_to_expiry dte) iv ∧
        r.contracts = min (pyTrunc (risk_amount /
          (spread_net_debit fns entry target is_call (time_to_expiry dte) iv * 100)))
          max_contracts ∧
        r.contracts ≠ 0 ∧
        r.max_loss = pyRound 0 (spread_net_debit fns entry target is_call
          (time_to_expiry dte) iv * (r.contracts : ℚ) * 100) ∧
        |r.max_loss - spread_net_debit fns entry target is_call (time_to_expiry dte) iv *
          (r.contracts : ℚ) * 100| ≤ 1/2)) ∧
    ((butterfly_net_debit fns current_price pin_target is_call (time_to_expiry dte) iv ≤ 0 →
        find_butterfly_strategy fns instrument current_price pin_target risk_amount
          is_call dte iv = none) ∧
      (min (pyTrunc (risk_amount /
          (butterfly_net_debit fns current_price pin_target is_call (time_to_expiry dte) iv
            * 100))) max_contracts = 0 →
        find_butterfly_strategy fns instrument current_price pin_target risk_amount
          is_call dte iv = none) ∧
      (∀ r : ButterflyRec,
        find_butterfly_strategy fns instrument current_price pin_target risk_amount
          is_call dte iv = some r →
        0 < butterfly_net_debit fns current_price pin_target is_call (time_to_expiry dte) iv ∧
        r.contracts = min (pyTrunc (risk_amount /
          (butterfly_net_debit fns current_price pin_target is_call (time_to_expiry dte) iv
            * 100))) max_contracts ∧
        r.contracts ≠ 0 ∧
        r.max_loss = pyRound 0 (butterfly_net_debit fns current_price pin_target is_call
          (time_to_expiry dte) iv * (r.contracts : ℚ) * 100) ∧
        |r.max_loss - butterfly_net_debit fns current_price pin_target is_call
          (time_to_expiry dte) iv * (r.contracts : ℚ) * 100| ≤ 1/2)) := by
  constructor
  · refine ⟨?_, ?_, ?_⟩
    · intro h
      simp only [find_spread_strategy]
      rw [if_pos h]
    · intro h0
      simp only [find_spread_strategy]
      split_ifs with h1 h2 <;> first | rfl | exact absurd h0 h2
    · intro r h
      simp only [find_spread_strategy] at h
      split_ifs at h with h1 h2 <;>
        first
          | exact Option.noConfusion h
          | (obtain rfl := Option.some.inj h
             exact ⟨not_le.mp h1, rfl, h2, rfl, pyRound_zero_abs _⟩)
  · refine ⟨?_, ?_, ?_⟩
    · intro h
      simp only [find_butterfly_strategy]
      rw [if_pos h]
    · intro h0
      simp only [find_butterfly_strategy]
      split_ifs with h1 h2 <;> first | rfl | exact absurd h0 h2
    · intro r h
      simp only [find_butterfly_strategy] at h
      split_ifs at h with h1 h2 <;>
        first
          | exact Option.noConfusion h
          | (obtain rfl := Option.some.inj h
             exact ⟨not_le.mp h1, rfl, h2, rfl, pyRound_zero_abs _⟩)

/-- Witness for C8: under the zero functions every premium is 0, both
net debits are 0, and both constructors reject. -/
theorem spread_butterfly_reject_witness :
    find_spread_strategy zeroFns "SPX" 100 100 110 1000 true 0 (1/5) = none ∧
    find_butterfly_strategy zeroFns "SPX" 100 100 1000 true 0 (1/5) = none := by
  constructor
  · exact (spread_butterfly_reject_and_max_loss zeroFns "SPX" 100 100 110 100 1000
      true 0 (1/5)).1.1 (by decide)
  · exact (spread_butterfly_reject_and_max_loss zeroFns "SPX" 100 100 110 100 1000
      true 0 (1/5)).2.1 (by decide)

/-- Counterexample to C8's exact-equality reading: under `spreadFns`, the
990/1080 vertical call spread has net debit exactly 45.0049; two spreads
are bought, the exact cost is 9000.98, and the reported `max_loss` is
`round(9000.98, 0) = 9001`, which equals neither the exact
`netDebit*contracts*100` nor the figure recomputed from the reported
(2-decimal-rounded) net debit 45.00. -/
theorem spread_max_loss_rounding_gap :
    (find_spread_strategy spreadFns "SPX" 1000 1000 1080 10000 true 0 (1/5)).map
      SpreadRec.max_loss = some 9001 ∧
    (find_spread_strategy spreadFns "SPX" 1000 1000 1080 10000 true 0 (1/5)).map
      SpreadRec.contracts = some 2 ∧
    (find_spread_strategy spreadFns "SPX" 1000 1000 1080 10000 true 0 (1/5)).map
      SpreadRec.net_debit = some 45 ∧
    spread_net_debit spreadFns 1000 1080 true (time_to_expiry 0) (1/5) * 2 * 100 ≠ 9001 ∧
    (45 : ℚ) * 2 * 100 ≠ 9001 := by decide

/-- C9.  `convert_spx_levels` maps the SPY and XSP levels by exact
multiplication with factor 0.1 and attaches no fair value to them, SPX
is the identity, and the 5800/5780/5840 scenario converts to SPY
580/578/584. -/
theorem convert_spx_levels_spy_xsp_scaling (fns : MathFns) (e sl tp : ℚ) :
    (convert_spx_levels fns e sl tp).SPY.entry = e * (1/10) ∧
    (convert_spx_levels fns e sl tp).SPY.sl = sl * (1/10) ∧
    (convert_spx_levels fns e sl tp).SPY.tp = tp * (1/10) ∧
    (convert_spx_levels fns e sl tp).SPY.fair_value = none ∧
    (convert_spx_levels fns e sl tp).XSP.entry = e * (1/10) ∧
    (convert_spx_levels fns e sl tp).XSP.sl = sl * (1/10) ∧
    (convert_spx_levels fns e sl tp).XSP.tp = tp * (1/10) ∧
    (convert_spx_levels fns e sl tp).XSP.fair_value = none ∧
    (convert_spx_levels fns e sl tp).SPX.entry = e ∧
    (convert_spx_levels fns e sl tp).SPX.sl = sl ∧
    (convert_spx_levels fns e sl tp).SPX.tp = tp ∧
    (convert_spx_levels fns e sl tp).SPX.fair_value = none ∧
    (convert_spx_levels fns 5800 5780 5840).SPY.entry = 580 ∧
    (convert_spx_levels fns 5800 5780 5840).SPY.sl = 578 ∧
    (convert_spx_levels fns 5800 5780 5840).SPY.tp = 584 := by
  refine ⟨rfl, rfl, rfl, rfl, rfl, rfl, rfl, rfl, rfl, rfl, rfl, rfl, ?_, ?_, ?_⟩ <;>
    norm_num [convert_spx_levels]

/-- C10.  `optimal_position_size` always returns at least one contract
(the `max(1, ...)` floor), even when one contract costs more than the
risk amount (`100 < 9*100` yet the result is 1), and the 25% Kelly
fraction is applied by truncation before the floor: with risk 250 and
price 1 the pre-Kelly count is 2, `int(2*0.25) = 0`, and the floor
lifts the result to 1. -/
theorem optimal_position_size_min_one :
    (∀ (risk_amount option_price : ℚ) (mc : Option ℤ),
      1 ≤ optimal_position_size risk_amount option_price mc) ∧
    optimal_position_size 100 9 none = 1 ∧ (100 : ℚ) < 9 * 100 ∧
    optimal_position_size 250 1 none = 1 ∧ pyTrunc ((250 : ℚ) / (1 * 100)) = 2 := by
  refine ⟨?_, by decide, by decide, by decide, by decide⟩
  intro risk_amount option_price mc
  unfold optimal_position_size
  exact le_max_left 1 _
